import Mathlib

/-
Verification of the IFG (Impaired Fasting Glucose) risk stratification
pipeline implemented in streamlite.py.

Modelling conventions:
* Python floats are modelled by `PyFloat`: either NaN or an exact finite
  value carried as a rational number.  The two threshold constants
  `0.06 * 3` and `0.24 * 3` are exactly representable in IEEE double
  precision (both products equal the doubles written `0.18` and `0.72`:
  double(0.06) = 8646911284551352 / 2^57, and 3 times that is
  3242591731706757 / 2^54, which is exactly double(0.18); the analogous
  computation holds for 0.24 * 3 and 0.72), so exact rational arithmetic
  agrees with the program's floating-point arithmetic on every
  comparison appearing in the claims.  NaN compares false under every
  ordering operator, as in IEEE 754.
* The pandas DataFrame row is an association list from column names to
  cell values; `pd.to_numeric(errors="coerce")` sends numeric cells
  through unchanged and turns any non-numeric cell into NaN.
* The fitted preprocessor's `transform` and the classifier's
  `predict_proba` are opaque library objects; they are passed into the
  scoring pipeline as functions returning `Except String _`, an
  exception being modelled by the `error` case.
* Streamlit's `st.error`/`st.stop` on the failure paths abort only the
  current scoring request; in the embedding they are the typed error
  results of `score_pipeline` and `load_model`.
-/

namespace IFG

/-- A Python float: NaN, or a finite value modelled exactly as a rational. -/
inductive PyFloat where
  | nan : PyFloat
  | fin : ℚ → PyFloat
deriving DecidableEq, Repr

/-- Python `a >= b` on floats: any comparison with NaN is false. -/
def PyFloat.ge : PyFloat → PyFloat → Bool
  | .fin a, .fin b => decide (b ≤ a)
  | _, _ => false

/-- Python `a < b` on floats: any comparison with NaN is false. -/
def PyFloat.lt : PyFloat → PyFloat → Bool
  | .fin a, .fin b => decide (a < b)
  | _, _ => false

/-- Multiplication of a float by a finite constant, as in `3*(...)`:
NaN propagates. -/
def PyFloat.scale (c : ℚ) : PyFloat → PyFloat
  | .nan => .nan
  | .fin q => .fin (c * q)

/-- The three ordinal risk tiers produced by the classification block
(lines 130-138 of streamlite.py). -/
inductive RiskLevel where
  | low : RiskLevel
  | moderate : RiskLevel
  | high : RiskLevel
deriving DecidableEq, Repr

/-- Ordinal rank of a tier: Low < Moderate < High. -/
def RiskLevel.rank : RiskLevel → Nat
  | .low => 0
  | .moderate => 1
  | .high => 2

/-- `MODERATE_RISK_THRESHOLD = 0.06*3` (streamlite.py line 60). -/
def MODERATE_RISK_THRESHOLD : ℚ := 0.06 * 3

/-- `HIGH_RISK_THRESHOLD = 0.24*3` (streamlite.py line 61). -/
def HIGH_RISK_THRESHOLD : ℚ := 0.24 * 3

/-- The risk-category block of streamlite.py (lines 130-138):
`if proba >= HIGH_RISK_THRESHOLD: High; elif proba >= MODERATE_RISK_THRESHOLD:
Moderate; else: Low`. -/
def risk_level (proba : PyFloat) : RiskLevel :=
  if proba.ge (.fin HIGH_RISK_THRESHOLD) then .high
  else if proba.ge (.fin MODERATE_RISK_THRESHOLD) then .moderate
  else .low

/-- A cell of the single-row input DataFrame before numeric coercion:
either a numeric value, or a value that is not parseable as a number
(tagged with its textual form). -/
inductive CellValue where
  | num : ℚ → CellValue
  | nonNum : String → CellValue
deriving DecidableEq, Repr

/-- `pd.to_numeric(input_df[c], errors="coerce")` applied to one cell
(streamlite.py lines 118-119): numeric values pass through; a value not
parseable as a number is silently coerced to NaN.  It never raises. -/
def to_numeric_coerce : CellValue → PyFloat
  | .num q => .fin q
  | .nonNum _ => .nan

/-- The 11 clinical/lifestyle fields of one input record. -/
structure InputRecord where
  p1 : CellValue
  p13 : CellValue
  age : CellValue
  bmi : CellValue
  HR : CellValue
  DBP : CellValue
  b8 : CellValue
  m14 : CellValue
  SBP : CellValue
  d1 : CellValue
  d3 : CellValue
deriving DecidableEq, Repr

/-- The dict literal returned by `user_inputs()` (streamlite.py lines
87-90), with its keys in the source's insertion order. -/
def input_dict (r : InputRecord) : List (String × CellValue) :=
  [("age", r.age), ("bmi", r.bmi), ("HR", r.HR), ("DBP", r.DBP),
   ("b8", r.b8), ("m14", r.m14), ("SBP", r.SBP), ("d1", r.d1),
   ("d3", r.d3), ("p1", r.p1), ("p13", r.p13)]

/-- The same record stored with its keys in canonical order instead:
used to show the extracted row does not depend on insertion order. -/
def input_dict_canonical (r : InputRecord) : List (String × CellValue) :=
  [("p1", r.p1), ("p13", r.p13), ("age", r.age), ("bmi", r.bmi),
   ("HR", r.HR), ("DBP", r.DBP), ("b8", r.b8), ("m14", r.m14),
   ("SBP", r.SBP), ("d1", r.d1), ("d3", r.d3)]

/-- `columns_ordered` (streamlite.py line 114): the exact training
column order. -/
def columns_ordered : List String :=
  ["p1", "p13", "age", "bmi", "HR", "DBP", "b8", "m14", "SBP", "d1", "d3"]

/-- Key-based cell lookup, as `pd.DataFrame([input_data],
columns=columns_ordered)` selects columns by name; a column absent from
the dict would be filled with NaN by pandas. -/
def lookupCell (d : List (String × CellValue)) (c : String) : CellValue :=
  match d.lookup c with
  | some v => v
  | none => .nonNum ("missing")

/-- The single row of `input_df` (streamlite.py line 115): the dict's
values re-extracted in canonical column order. -/
def df_row (d : List (String × CellValue)) : List CellValue :=
  columns_ordered.map (lookupCell d)

/-- The row handed to the numeric-coercion loop for a given record. -/
def input_df_row (r : InputRecord) : List CellValue :=
  df_row (input_dict r)

/-- The coercion loop (streamlite.py lines 118-119) applied to the row. -/
def coerce_row (row : List CellValue) : List PyFloat :=
  row.map to_numeric_coerce

/-- `p1_encoded = 1 if p1 == 'Yes' else 2` (streamlite.py line 84). -/
def encode_p1 (ans : String) : ℚ :=
  if ans = "Yes" then 1 else 2

/-- `p13_encoded = 1 if p13 == 'Yes' else 2` (streamlite.py line 85). -/
def encode_p13 (ans : String) : ℚ :=
  if ans = "Yes" then 1 else 2

/-- The raw widget values collected by `user_inputs()` (streamlite.py
lines 70-81); p1 and p13 are the selectbox answers as strings. -/
structure RawInputs where
  age : ℚ
  bmi : ℚ
  hr : ℚ
  dbp : ℚ
  sbp : ℚ
  b8 : ℚ
  m14 : ℚ
  d1 : ℚ
  d3 : ℚ
  p1 : String
  p13 : String
deriving DecidableEq, Repr

/-- `user_inputs()` (streamlite.py lines 69-90): encodes p1/p13 and
packs all 11 fields into the record. -/
def user_inputs (w : RawInputs) : InputRecord :=
  { p1 := .num (encode_p1 w.p1), p13 := .num (encode_p13 w.p13),
    age := .num w.age, bmi := .num w.bmi, HR := .num w.hr,
    DBP := .num w.dbp, b8 := .num w.b8, m14 := .num w.m14,
    SBP := .num w.sbp, d1 := .num w.d1, d3 := .num w.d3 }

/-- Typed scoring failures.  `transformFailed` is the
`except Exception` branch (streamlite.py lines 125-127) carrying the
exception message; `invalidInput` is the per-field coercion failure the
specification describes (ScoringError::InvalidInput) — no code path in
streamlite.py constructs it, which is exactly what the theorems below
establish. -/
inductive ScoringError where
  | invalidInput : ScoringError
  | transformFailed : String → ScoringError
deriving DecidableEq, Repr

/-- `float(3*(model.predict_proba(X)[0][1]))` (streamlite.py line 124):
index row 0, then class index 1, then scale by 3.  An out-of-range index
raises (IndexError), which the surrounding `try` turns into the
transform-failed path. -/
def extract_proba (pm : List (List PyFloat)) : Except String PyFloat :=
  match pm.head? with
  | none => .error ("IndexError")
  | some row0 =>
    match row0.get? 1 with
    | none => .error ("IndexError")
    | some v => .ok (v.scale 3)

/-- The scoring block of streamlite.py (lines 112-127): build the
single-row DataFrame in canonical column order, coerce every cell to
numeric (never failing), then run `preprocessor.transform` and
`model.predict_proba` inside one `try`; any exception in that block is
caught and reported as a transform/predict failure that aborts only the
current request. -/
def score_pipeline
    (transform : List PyFloat → Except String (List PyFloat))
    (predict_proba : List PyFloat → Except String (List (List PyFloat)))
    (r : InputRecord) : Except ScoringError PyFloat :=
  let row := coerce_row (input_df_row r)
  match transform row with
  | .error e => .error (.transformFailed e)
  | .ok X =>
    match predict_proba X with
    | .error e => .error (.transformFailed e)
    | .ok pm =>
      match extract_proba pm with
      | .error e => .error (.transformFailed e)
      | .ok p => .ok p

/-- An opaque deserialized artifact (fitted preprocessor or model). -/
inductive Artifact where
  | mk : Nat → Artifact
deriving DecidableEq, Repr

/-- The filesystem/deserializer environment seen by `load_model()`:
whether each artifact file exists, and what `joblib.load` would return
for it (an exception being the `error` case). -/
structure FS where
  preExists : Bool
  modelExists : Bool
  loadPre : Except String Artifact
  loadMdl : Except String Artifact
deriving Repr

/-- The message of the FileNotFoundError raised (and immediately caught)
when either artifact file is absent (streamlite.py line 35). -/
def missing_files_msg : String :=
  "validated_preprocessor.joblib or validated_model.joblib not found"

/-- Outcome of `load_model()` (streamlite.py lines 31-48): either both
artifacts, or the caught FileNotFoundError branch (lines 40-42), or the
caught generic-exception branch (lines 43-48).  The two error branches
call `st.error` and return `(None, None)`; no exception escapes. -/
inductive LoadOutcome where
  | loaded : Artifact → Artifact → LoadOutcome
  | artifactMissing : String → LoadOutcome
  | loadError : String → LoadOutcome
deriving DecidableEq, Repr

/-- `load_model()` (streamlite.py lines 31-48). -/
def load_model (fs : FS) : LoadOutcome :=
  if !(fs.preExists && fs.modelExists) then
    .artifactMissing missing_files_msg
  else
    match fs.loadPre with
    | .error e => .loadError e
    | .ok pre =>
      match fs.loadMdl with
      | .error e => .loadError e
      | .ok mdl => .loaded pre mdl

/-- The app's default widget values (streamlite.py lines 70-81), used as
a concrete record in witnesses. -/
def default_record : InputRecord :=
  user_inputs
    { age := 45, bmi := 28.5, hr := 72, dbp := 80, sbp := 120,
      b8 := 5.2, m14 := 95.5, d1 := 3, d3 := 5,
      p1 := "No", p13 := "No" }

/-- A record whose p1 cell is not parseable as a number, used to show
that coercion failure does not stop the pipeline. -/
def bad_record : InputRecord :=
  { default_record with p1 := .nonNum ("abc") }

/-- Claim C1: the tier classification is total over all floats with two
fixed thresholds and inclusive lower bounds — `p >= HIGH → High`, else
`p >= MODERATE → Moderate`, else `Low` — exactly one tier is returned,
no input produces an error (NaN included), and the probability is
compared to the thresholds directly, with no further scaling inside
classification. -/
theorem risk_level_total_and_thresholded :
    (∀ p : PyFloat,
      (p.ge (.fin HIGH_RISK_THRESHOLD) = true → risk_level p = .high) ∧
      (p.ge (.fin HIGH_RISK_THRESHOLD) = false →
        p.ge (.fin MODERATE_RISK_THRESHOLD) = true → risk_level p = .moderate) ∧
      (p.ge (.fin HIGH_RISK_THRESHOLD) = false →
        p.ge (.fin MODERATE_RISK_THRESHOLD) = false → risk_level p = .low)) ∧
    (∀ p : PyFloat,
      risk_level p = .low ∨ risk_level p = .moderate ∨ risk_level p = .high) := by
  constructor
  · intro p
    refine ⟨fun h1 => by simp [risk_level, h1],
            fun h1 h2 => by simp [risk_level, h1, h2],
            fun h1 h2 => by simp [risk_level, h1, h2]⟩
  · intro p
    unfold risk_level
    split_ifs <;> simp

/-- Witness for C1 at concrete inputs 0.9, 0.3 and 0.1. -/
theorem risk_level_total_and_thresholded_witness :
    risk_level (.fin 0.9) = .high ∧ risk_level (.fin 0.3) = .moderate ∧
    risk_level (.fin 0.1) = .low := by
  refine ⟨(risk_level_total_and_thresholded.1 (.fin 0.9)).1 ?_,
          (risk_level_total_and_thresholded.1 (.fin 0.3)).2.1 ?_ ?_,
          (risk_level_total_and_thresholded.1 (.fin 0.1)).2.2 ?_ ?_⟩ <;>
    norm_num [PyFloat.ge, HIGH_RISK_THRESHOLD, MODERATE_RISK_THRESHOLD]

/-- Claim C2: the scorer returns exactly 3 times the raw positive-class
probability (index 1 of the two-class output), for any classifier stub
returning a fixed probability pair; the scaled value is never
re-clamped, so raw 0.3 yields 0.9 and raw 0.5 yields 1.5, which exceeds
1. -/
theorem scorer_scales_by_three :
    (∀ (r0 r1 : ℚ) (r : InputRecord),
      score_pipeline (fun row => .ok row) (fun _ => .ok [[.fin r0, .fin r1]]) r
        = .ok (.fin (3 * r1))) ∧
    score_pipeline (fun row => .ok row) (fun _ => .ok [[.fin 0.7, .fin 0.3]])
        default_record = .ok (.fin 0.9) ∧
    score_pipeline (fun row => .ok row) (fun _ => .ok [[.fin 0.5, .fin 0.5]])
        default_record = .ok (.fin 1.5) ∧
    (1 : ℚ) < 1.5 := by
  refine ⟨fun r0 r1 r => ?_, ?_, ?_, by norm_num⟩ <;>
    norm_num [score_pipeline, extract_proba, PyFloat.scale]

/-- Claim C3: the threshold constants equal exactly 0.18 and 0.72, and
the boundary values classify as Moderate, Low, High, Moderate
respectively. -/
theorem thresholds_and_boundaries :
    MODERATE_RISK_THRESHOLD = 0.18 ∧ HIGH_RISK_THRESHOLD = 0.72 ∧
    risk_level (.fin 0.18) = .moderate ∧ risk_level (.fin 0.1799999) = .low ∧
    risk_level (.fin 0.72) = .high ∧ risk_level (.fin 0.7199999) = .moderate := by
  refine ⟨?_, ?_, ?_, ?_, ?_, ?_⟩ <;>
    norm_num [risk_level, PyFloat.ge, HIGH_RISK_THRESHOLD, MODERATE_RISK_THRESHOLD]

/-- Claim C4: classification is monotone — for floats a < b (a
comparison that is only ever true between finite values), the tier rank
of `risk_level a` is at most the tier rank of `risk_level b`. -/
theorem risk_level_monotone :
    ∀ a b : PyFloat, a.lt b = true →
      (risk_level a).rank ≤ (risk_level b).rank := by
  intro a b h
  cases a with
  | nan => simp [PyFloat.lt] at h
  | fin x =>
    cases b with
    | nan => simp [PyFloat.lt] at h
    | fin y =>
      simp only [PyFloat.lt, decide_eq_true_eq] at h
      simp only [risk_level, PyFloat.ge, decide_eq_true_eq]
      split_ifs with h1 h2 h3 h4 h5 <;>
        simp [RiskLevel.rank] <;> linarith

/-- Witness for C4 at the concrete pair 0.1 < 0.9. -/
theorem risk_level_monotone_witness :
    PyFloat.lt (.fin 0.1) (.fin 0.9) = true ∧
    (risk_level (.fin 0.1)).rank ≤ (risk_level (.fin 0.9)).rank := by
  refine ⟨by norm_num [PyFloat.lt], ?_⟩
  exact risk_level_monotone (.fin 0.1) (.fin 0.9) (by norm_num [PyFloat.lt])

/-- Claim C5: the categorical answers for p1 and p13 encode Yes to 1
and No to 2, no other code is ever produced, and these are exactly the
values `user_inputs` stores in the record. -/
theorem yes_no_encoding :
    encode_p1 ("Yes") = 1 ∧ encode_p1 ("No") = 2 ∧
    encode_p13 ("Yes") = 1 ∧ encode_p13 ("No") = 2 ∧
    (∀ s : String, encode_p1 s = 1 ∨ encode_p1 s = 2) ∧
    (∀ s : String, encode_p13 s = 1 ∨ encode_p13 s = 2) ∧
    (∀ w : RawInputs, (user_inputs w).p1 = .num (encode_p1 w.p1) ∧
      (user_inputs w).p13 = .num (encode_p13 w.p13)) := by
  refine ⟨rfl, rfl, rfl, rfl, fun s => ?_, fun s => ?_, fun w => ⟨rfl, rfl⟩⟩ <;>
    · by_cases h : s = "Yes" <;> simp [encode_p1, encode_p13, h]

/-- Claim C6: for every InputRecord, the single row handed to the
preprocessor lists the 11 cells in the exact canonical column order
[p1, p13, age, bmi, HR, DBP, b8, m14, SBP, d1, d3], and the extraction
is key-based, so storing the record's fields in a different insertion
order yields the same row. -/
theorem canonical_column_order :
    ∀ r : InputRecord,
      input_df_row r =
        [r.p1, r.p13, r.age, r.bmi, r.HR, r.DBP, r.b8, r.m14, r.SBP,
         r.d1, r.d3] ∧
      df_row (input_dict_canonical r) = input_df_row r := by
  intro r
  exact ⟨rfl, rfl⟩

/-- Counterexample to claim C7: the p1 cell of `bad_record` is not
parseable as a number, so its numeric coercion fails in the sense the
claim contemplates (it yields NaN); yet the pipeline does not return
InvalidInput — the NaN row is handed to the preprocessor (a sentinel
transform error proves the transform step is reached) and with
pass-through stubs scoring completes normally with result 0.3. -/
theorem coercion_failure_not_invalid_input :
    to_numeric_coerce (CellValue.nonNum ("abc")) = PyFloat.nan ∧
    coerce_row (input_df_row bad_record) =
      [.nan, .fin 2, .fin 45, .fin 28.5, .fin 72, .fin 80, .fin 5.2,
       .fin 95.5, .fin 120, .fin 3, .fin 5] ∧
    score_pipeline (fun _ => .error ("transform reached")) (fun _ => .ok [])
      bad_record = .error (.transformFailed ("transform reached")) ∧
    score_pipeline (fun row => .ok row) (fun _ => .ok [[.fin 0.7, .fin 0.1]])
      bad_record = .ok (.fin 0.3) := by
  refine ⟨rfl, ?_, ?_, ?_⟩
  · simp [coerce_row, input_df_row, df_row, input_dict, bad_record,
      default_record, user_inputs, lookupCell, columns_ordered,
      to_numeric_coerce, encode_p1, encode_p13, List.lookup]
  · simp [score_pipeline]
  · norm_num [score_pipeline, extract_proba, PyFloat.scale]

/-- Claim C7 as amended: before transformation every cell is coerced
with errors="coerce", which never fails — a non-numeric cell silently
becomes NaN and the pipeline proceeds to the preprocessing step; no
InvalidInput error is ever produced, the pipeline's only outcomes being
success or TransformFailed. -/
theorem coercion_never_fails :
    (∀ s : String, to_numeric_coerce (.nonNum s) = .nan) ∧
    (∀ (t : List PyFloat → Except String (List PyFloat))
       (p : List PyFloat → Except String (List (List PyFloat)))
       (r : InputRecord),
      (∃ v, score_pipeline t p r = .ok v) ∨
      (∃ m, score_pipeline t p r = .error (.transformFailed m))) := by
  constructor
  · intro s; rfl
  · intro t p r
    cases ht : t (coerce_row (input_df_row r)) with
    | error e => exact Or.inr ⟨e, by simp [score_pipeline, ht]⟩
    | ok X =>
      cases hp : p X with
      | error e => exact Or.inr ⟨e, by simp [score_pipeline, ht, hp]⟩
      | ok pm =>
        cases he : extract_proba pm with
        | error e => exact Or.inr ⟨e, by simp [score_pipeline, ht, hp, he]⟩
        | ok v => exact Or.inl ⟨v, by simp [score_pipeline, ht, hp, he]⟩

/-- Claim C8: if either artifact file is absent, `load_model` returns
the missing-artifact failure whose message names the missing file (the
fixed message spells out both artifact file names); and for every
filesystem outcome the loader returns either the loaded pair or a typed
failure — no exception propagates. -/
theorem load_model_missing_and_total :
    (∀ fs : FS, fs.preExists = false ∨ fs.modelExists = false →
      load_model fs = .artifactMissing missing_files_msg) ∧
    missing_files_msg =
      "validated_preprocessor.joblib" ++ " or " ++ "validated_model.joblib"
        ++ " not found" ∧
    (∀ fs : FS,
      (∃ pre mdl, load_model fs = .loaded pre mdl) ∨
      (∃ e, load_model fs = .artifactMissing e) ∨
      (∃ e, load_model fs = .loadError e)) := by
  refine ⟨fun fs h => ?_, rfl, fun fs => ?_⟩
  · rcases h with h | h <;> simp [load_model, h]
  · cases hb : (fs.preExists && fs.modelExists) with
    | false =>
      exact Or.inr (Or.inl ⟨missing_files_msg, by simp [load_model, hb]⟩)
    | true =>
      cases hp : fs.loadPre with
      | error e => exact Or.inr (Or.inr ⟨e, by simp [load_model, hb, hp]⟩)
      | ok pre =>
        cases hm : fs.loadMdl with
        | error e => exact Or.inr (Or.inr ⟨e, by simp [load_model, hb, hp, hm]⟩)
        | ok mdl => exact Or.inl ⟨pre, mdl, by simp [load_model, hb, hp, hm]⟩

/-- Witness for C8: a filesystem with the preprocessor file absent. -/
theorem load_model_missing_witness :
    load_model { preExists := false, modelExists := true,
                 loadPre := .ok (.mk 0), loadMdl := .ok (.mk 0) }
      = .artifactMissing missing_files_msg :=
  load_model_missing_and_total.1 _ (Or.inl rfl)

/-- Claim C9: an exception in the preprocessor transform step, or in
the classifier prediction step, is caught and mapped to the typed
TransformFailed error carrying the exception's message; the pipeline
returns this error to the caller (aborting only the current request)
instead of propagating the exception. -/
theorem transform_predict_errors_wrapped :
    ∀ (t : List PyFloat → Except String (List PyFloat))
      (p : List PyFloat → Except String (List (List PyFloat)))
      (r : InputRecord) (e : String),
      (t (coerce_row (input_df_row r)) = .error e →
        score_pipeline t p r = .error (.transformFailed e)) ∧
      (∀ X, t (coerce_row (input_df_row r)) = .ok X → p X = .error e →
        score_pipeline t p r = .error (.transformFailed e)) := by
  intro t p r e
  constructor
  · intro ht
    simp [score_pipeline, ht]
  · intro X ht hp
    simp [score_pipeline, ht, hp]

/-- Witness for C9: a transform stub and a predict stub that raise. -/
theorem transform_predict_errors_wrapped_witness :
    score_pipeline (fun _ => .error ("boom")) (fun _ => .ok []) default_record
      = .error (.transformFailed ("boom")) ∧
    score_pipeline (fun row => .ok row) (fun _ => .error ("pred"))
      default_record = .error (.transformFailed ("pred")) := by
  constructor
  · exact (transform_predict_errors_wrapped _ _ default_record ("boom")).1 rfl
  · exact (transform_predict_errors_wrapped _ _ default_record ("pred")).2
      _ rfl rfl

/-- Claim C10: both threshold comparisons evaluate to false on NaN, so
NaN is classified as Low rather than an error or a distinguished
result; a NaN produced upstream (a non-numeric cell coerced to NaN, or
a NaN surviving transform and predict into the scaled probability)
therefore surfaces as a Low-risk assessment. -/
theorem nan_classified_low :
    PyFloat.ge .nan (.fin HIGH_RISK_THRESHOLD) = false ∧
    PyFloat.ge .nan (.fin MODERATE_RISK_THRESHOLD) = false ∧
    risk_level .nan = .low ∧
    to_numeric_coerce (CellValue.nonNum ("not a number")) = .nan ∧
    score_pipeline (fun row => .ok row) (fun _ => .ok [[.fin 0.5, .nan]])
      default_record = .ok .nan ∧
    risk_level (PyFloat.nan.scale 3) = .low := by
  exact ⟨rfl, rfl, rfl, rfl, by simp [score_pipeline, extract_proba,
    PyFloat.scale], rfl⟩

end IFG
